import Mathlib

/-!
Shallow embedding of the pheromone-field / agent simulation
(`src/main.ts`, current revision, and the earlier near-duplicate
revision) in Lean 4, with theorems checking the specification's
claims about it.

Modelling conventions:
* JavaScript `number` values are modelled as exact rationals (`ℚ`);
  `Float32Array` cells likewise hold `ℚ`.  `Math.floor` is `Int.floor`.
* `Math.PI` is modelled by the exact rational value of the IEEE-754
  double that JavaScript's `Math.PI` denotes.
* `Math.hypot d1 d2 < r` comparisons are modelled by the equivalent
  squared comparison `d1^2 + d2^2 < r^2` (equivalent for the
  nonnegative radii the program uses, since squaring is monotone on
  nonnegative reals).
* `Math.random()` draws are passed in as explicit parameters.
-/

/-- Exact rational value of the IEEE-754 double `Math.PI`
(`884279719003555 * 2^-48`). -/
def MathPI : ℚ := 884279719003555 / 281474976710656

/-- Pheromone channels (enum `PheromoneType` in the source). -/
inductive PheromoneType where
  | HOME
  | FOOD
deriving DecidableEq, Repr

/-- Agent states (enum `AgentState` in the source). -/
inductive AgentState where
  | FORAGING
  | RETURNING
deriving DecidableEq, Repr

/-- The opposite channel. -/
def PheromoneType.other : PheromoneType → PheromoneType
  | PheromoneType.HOME => PheromoneType.FOOD
  | PheromoneType.FOOD => PheromoneType.HOME

/-- The channel a deposit or read actually lands on:
`params.singlePheromoneMode ? PheromoneType.HOME : type`. -/
def effChannel (single : Bool) (t : PheromoneType) : PheromoneType :=
  if single then PheromoneType.HOME else t

/-- The `PheromoneGrid` class state: dimensions plus the two flat
`Float32Array` fields, modelled as functions from flat index to value
(indices `≥ width*height` do not exist in the real array and are never
touched by the operations). -/
structure Grid where
  width : ℕ
  height : ℕ
  homeGrid : ℕ → ℚ
  foodGrid : ℕ → ℚ

namespace Grid

/-- Flat index `Math.floor(y) * width + Math.floor(x)` as the integer
the source computes (before any bounds check). -/
def cellIndexZ (g : Grid) (x y : ℚ) : ℤ :=
  Int.floor y * (g.width : ℤ) + Int.floor x

/-- The flat index as a natural number (array subscript). -/
def cellIndex (g : Grid) (x y : ℚ) : ℕ :=
  (g.cellIndexZ x y).toNat

/-- The in-bounds test `getLevel` performs:
`!(x < 0 || x >= width || y < 0 || y >= height)`. -/
def inBounds (g : Grid) (x y : ℚ) : Prop :=
  0 ≤ x ∧ x < (g.width : ℚ) ∧ 0 ≤ y ∧ y < (g.height : ℚ)

instance (g : Grid) (x y : ℚ) : Decidable (g.inBounds x y) := by
  unfold inBounds; infer_instance

/-- `PheromoneGrid.deposit` (current revision, `main.ts` 186-199).
The `single` flag is `params.singlePheromoneMode`.  The source guards
only the flat index (`idx >= 0 && idx < this.homeGrid.length`), not
the individual coordinates. -/
def deposit (g : Grid) (single : Bool) (x y : ℚ) (t : PheromoneType)
    (amount : ℚ) : Grid :=
  if 0 ≤ g.cellIndexZ x y ∧
      g.cellIndexZ x y < ((g.width * g.height : ℕ) : ℤ) then
    if effChannel single t = PheromoneType.HOME then
      { g with homeGrid := fun i =>
          if i = g.cellIndex x y
          then min 1 (g.homeGrid (g.cellIndex x y) + amount)
          else g.homeGrid i }
    else
      { g with foodGrid := fun i =>
          if i = g.cellIndex x y
          then min 1 (g.foodGrid (g.cellIndex x y) + amount)
          else g.foodGrid i }
  else g

/-- `PheromoneGrid.getLevel` (current revision, `main.ts` 202-211). -/
def getLevel (g : Grid) (single : Bool) (x y : ℚ) (t : PheromoneType) : ℚ :=
  if x < 0 ∨ (g.width : ℚ) ≤ x ∨ y < 0 ∨ (g.height : ℚ) ≤ y then -1
  else
    if effChannel single t = PheromoneType.HOME
    then g.homeGrid (g.cellIndex x y)
    else g.foodGrid (g.cellIndex x y)

/-- One cell of the evaporation pass:
`v *= rate; if (v < 0.001) v = 0`. -/
def cellDecay (rate v : ℚ) : ℚ :=
  if v * rate < 1/1000 then 0 else v * rate

/-- `PheromoneGrid.evaporate` (current revision, `main.ts` 214-223):
the loop runs over exactly the `width*height` array entries. -/
def evaporate (g : Grid) (rate : ℚ) : Grid :=
  { g with
    homeGrid := fun i =>
      if i < g.width * g.height then cellDecay rate (g.homeGrid i)
      else g.homeGrid i
    foodGrid := fun i =>
      if i < g.width * g.height then cellDecay rate (g.foodGrid i)
      else g.foodGrid i }

/-- `PheromoneGrid.reset` (current revision, `main.ts` 225-228). -/
def reset (g : Grid) : Grid :=
  { g with homeGrid := fun _ => 0, foodGrid := fun _ => 0 }

/-- A freshly constructed `new PheromoneGrid(w, h)`: both arrays
zero-filled. -/
def zero (w h : ℕ) : Grid :=
  { width := w, height := h, homeGrid := fun _ => 0, foodGrid := fun _ => 0 }

/-- The spec's field invariant: every (existing) cell of both channels
lies in `[0,1]`. -/
def inUnitRange (g : Grid) : Prop :=
  ∀ i < g.width * g.height,
    (0 ≤ g.homeGrid i ∧ g.homeGrid i ≤ 1) ∧
    (0 ≤ g.foodGrid i ∧ g.foodGrid i ≤ 1)

/-- Selects the backing array of a channel. -/
def chan (g : Grid) : PheromoneType → ℕ → ℚ
  | PheromoneType.HOME => g.homeGrid
  | PheromoneType.FOOD => g.foodGrid

end Grid

theorem Grid.inBounds_cellIndex (g : Grid) (x y : ℚ) (h : g.inBounds x y) :
    0 ≤ g.cellIndexZ x y ∧ g.cellIndexZ x y < ((g.width * g.height : ℕ) : ℤ) ∧
    g.cellIndex x y < g.width * g.height := by
  obtain ⟨hx0, hxw, hy0, hyh⟩ := h
  have hfx0 : 0 ≤ Int.floor x := Int.floor_nonneg.mpr hx0
  have hfy0 : 0 ≤ Int.floor y := Int.floor_nonneg.mpr hy0
  have hfxw : Int.floor x < (g.width : ℤ) := by
    rw [Int.floor_lt]; exact_mod_cast hxw
  have hfyh : Int.floor y < (g.height : ℤ) := by
    rw [Int.floor_lt]; exact_mod_cast hyh
  have h1 : 0 ≤ g.cellIndexZ x y := by
    unfold Grid.cellIndexZ
    have : (0 : ℤ) ≤ (g.width : ℤ) := by positivity
    nlinarith
  have h2 : g.cellIndexZ x y < ((g.width * g.height : ℕ) : ℤ) := by
    unfold Grid.cellIndexZ
    push_cast
    nlinarith [mul_le_mul_of_nonneg_right
      (show Int.floor y ≤ (g.height : ℤ) - 1 by omega)
      (show (0 : ℤ) ≤ (g.width : ℤ) by positivity)]
  refine ⟨h1, h2, ?_⟩
  unfold Grid.cellIndex
  omega

theorem Grid.deposit_noop (g : Grid) (single : Bool) (x y amount : ℚ)
    (t : PheromoneType)
    (hno : ¬ (0 ≤ g.cellIndexZ x y ∧
        g.cellIndexZ x y < ((g.width * g.height : ℕ) : ℤ))) :
    g.deposit single x y t amount = g := by
  unfold Grid.deposit
  rw [if_neg hno]

theorem Grid.deposit_eq_home (g : Grid) (single : Bool) (x y amount : ℚ)
    (t : PheromoneType)
    (hguard : 0 ≤ g.cellIndexZ x y ∧
      g.cellIndexZ x y < ((g.width * g.height : ℕ) : ℤ))
    (hH : effChannel single t = PheromoneType.HOME) :
    g.deposit single x y t amount
      = { g with homeGrid := fun i =>
            if i = g.cellIndex x y
            then min 1 (g.homeGrid (g.cellIndex x y) + amount)
            else g.homeGrid i } := by
  unfold Grid.deposit
  rw [if_pos hguard, if_pos hH]

theorem Grid.deposit_eq_food (g : Grid) (single : Bool) (x y amount : ℚ)
    (t : PheromoneType)
    (hguard : 0 ≤ g.cellIndexZ x y ∧
      g.cellIndexZ x y < ((g.width * g.height : ℕ) : ℤ))
    (hF : effChannel single t = PheromoneType.FOOD) :
    g.deposit single x y t amount
      = { g with foodGrid := fun i =>
            if i = g.cellIndex x y
            then min 1 (g.foodGrid (g.cellIndex x y) + amount)
            else g.foodGrid i } := by
  unfold Grid.deposit
  rw [if_pos hguard, if_neg (by simp [hF])]

theorem Grid.getLevel_inBounds (g : Grid) (single : Bool) (x y : ℚ)
    (t : PheromoneType) (hin : g.inBounds x y) :
    g.getLevel single x y t
      = if effChannel single t = PheromoneType.HOME
        then g.homeGrid (g.cellIndex x y)
        else g.foodGrid (g.cellIndex x y) := by
  obtain ⟨hx0, hxw, hy0, hyh⟩ := hin
  unfold Grid.getLevel
  rw [if_neg (by push_neg; exact ⟨hx0, hxw, hy0, hyh⟩)]

/-- **C1** (amended).  `deposit` is a no-op exactly when the *flattened*
index `⌊y⌋·W + ⌊x⌋` falls outside `[0, W·H)` — not when the point
`(x, y)` itself is out of bounds.  For an in-bounds point, only the
truncated cell of the effective channel changes, increased by `amount`
and clamped to at most `1.0`; every other cell and the whole opposite
channel are unchanged. -/
theorem deposit_flat_index_guard (g : Grid) (single : Bool)
    (x y amount : ℚ) (t : PheromoneType) (j : ℕ) :
    (¬ (0 ≤ g.cellIndexZ x y ∧
          g.cellIndexZ x y < ((g.width * g.height : ℕ) : ℤ)) →
      g.deposit single x y t amount = g) ∧
    (g.inBounds x y →
      ((g.deposit single x y t amount).chan (effChannel single t)
          (g.cellIndex x y)
        = min 1 (g.chan (effChannel single t) (g.cellIndex x y) + amount)) ∧
      (j ≠ g.cellIndex x y →
        (g.deposit single x y t amount).chan (effChannel single t) j
          = g.chan (effChannel single t) j) ∧
      ((g.deposit single x y t amount).chan (effChannel single t).other
          = g.chan (effChannel single t).other)) := by
  constructor
  · intro hno
    unfold Grid.deposit
    rw [if_neg hno]
  · intro hin
    obtain ⟨h1, h2, h3⟩ := g.inBounds_cellIndex x y hin
    have hguard : 0 ≤ g.cellIndexZ x y ∧
        g.cellIndexZ x y < ((g.width * g.height : ℕ) : ℤ) := ⟨h1, h2⟩
    cases single <;> cases t <;>
      simp_all [Grid.deposit, Grid.chan, Grid.cellIndex, effChannel,
        PheromoneType.other]

/-- **C1** counterexample to the claim as stated: the point
`(600, 0)` is outside the `600 × 600` grid, yet `deposit` is not a
no-op there — the flattened index `⌊0⌋·600 + ⌊600⌋ = 600` is in range,
so the write wraps to cell `(0, 1)` and changes the home grid. -/
theorem deposit_oob_not_noop :
    ¬ (Grid.zero 600 600).inBounds 600 0 ∧
    ((Grid.zero 600 600).deposit false 600 0 PheromoneType.HOME
        (1/2)).homeGrid 600 = 1/2 ∧
    (Grid.zero 600 600).homeGrid 600 = 0 := by
  refine ⟨?_, ?_, rfl⟩
  · unfold Grid.inBounds Grid.zero
    norm_num
  · have hguard : 0 ≤ (Grid.zero 600 600).cellIndexZ 600 0 ∧
        (Grid.zero 600 600).cellIndexZ 600 0
          < ((((Grid.zero 600 600).width * (Grid.zero 600 600).height
              : ℕ)) : ℤ) := by
      unfold Grid.cellIndexZ Grid.zero
      norm_num
    rw [Grid.deposit_eq_home _ false 600 0 (1/2) PheromoneType.HOME
      hguard rfl]
    have hci : (Grid.zero 600 600).cellIndex 600 0 = 600 := by
      unfold Grid.cellIndex Grid.cellIndexZ Grid.zero
      norm_num
      rfl
    simp only [hci]
    norm_num [Grid.zero]

/-- **C4**.  `getLevel` returns the `-1` sentinel iff the query point
is outside `[0,W)×[0,H)`; at an in-bounds point it returns exactly the
stored concentration of the effective channel at the truncated cell,
a value in `[0,1]` under the field invariant. -/
theorem getLevel_sentinel_iff (g : Grid) (single : Bool) (x y : ℚ)
    (t : PheromoneType) (hinv : g.inUnitRange) :
    (g.getLevel single x y t = -1 ↔ ¬ g.inBounds x y) ∧
    (g.inBounds x y →
      g.getLevel single x y t
        = g.chan (effChannel single t) (g.cellIndex x y) ∧
      0 ≤ g.getLevel single x y t ∧ g.getLevel single x y t ≤ 1) := by
  have hval : g.inBounds x y →
      g.getLevel single x y t
        = g.chan (effChannel single t) (g.cellIndex x y) ∧
      0 ≤ g.getLevel single x y t ∧ g.getLevel single x y t ≤ 1 := by
    intro hin
    obtain ⟨hx0, hxw, hy0, hyh⟩ := hin
    have hj := (g.inBounds_cellIndex x y ⟨hx0, hxw, hy0, hyh⟩).2.2
    have hc : ¬ (x < 0 ∨ (g.width : ℚ) ≤ x ∨ y < 0 ∨ (g.height : ℚ) ≤ y) := by
      push_neg
      exact ⟨hx0, hxw, hy0, hyh⟩
    have hbounds := hinv (g.cellIndex x y) hj
    unfold Grid.getLevel
    simp only [if_neg hc]
    cases single <;> cases t <;>
      simp_all [Grid.chan, effChannel]
  constructor
  · constructor
    · intro hm1
      intro hin
      obtain ⟨-, hge, -⟩ := hval hin
      rw [hm1] at hge
      norm_num at hge
    · intro hnin
      have hc : x < 0 ∨ (g.width : ℚ) ≤ x ∨ y < 0 ∨ (g.height : ℚ) ≤ y := by
        unfold Grid.inBounds at hnin
        push_neg at hnin
        rcases lt_or_le x 0 with h | h
        · exact Or.inl h
        rcases lt_or_le x (g.width : ℚ) with h2 | h2
        · rcases lt_or_le y 0 with h3 | h3
          · exact Or.inr (Or.inr (Or.inl h3))
          · exact Or.inr (Or.inr (Or.inr (hnin h h2 h3)))
        · exact Or.inr (Or.inl h2)
      unfold Grid.getLevel
      rw [if_pos hc]
  · exact hval

/-- **C5**.  In single-channel mode a deposit requested on `FOOD` is
observable when sampling `HOME` at the same cell and vice versa (both
are redirected to the home grid); with the mode off, a deposit on one
channel never changes the value read on the other channel at any
cell. -/
theorem single_mode_channel_redirect (g : Grid) (x y x2 y2 x3 y3 a : ℚ)
    (t t2 : PheromoneType) (hin : g.inBounds x y) (hne : t ≠ t2) :
    ((g.deposit true x y PheromoneType.FOOD a).getLevel true x y
        PheromoneType.HOME
      = min 1 (g.homeGrid (g.cellIndex x y) + a)) ∧
    ((g.deposit true x y PheromoneType.HOME a).getLevel true x y
        PheromoneType.FOOD
      = min 1 (g.homeGrid (g.cellIndex x y) + a)) ∧
    ((g.deposit false x2 y2 t a).getLevel false x3 y3 t2
      = g.getLevel false x3 y3 t2) := by
  obtain ⟨h1, h2, h3⟩ := g.inBounds_cellIndex x y hin
  have hguard : 0 ≤ g.cellIndexZ x y ∧
      g.cellIndexZ x y < ((g.width * g.height : ℕ) : ℤ) := ⟨h1, h2⟩
  refine ⟨?_, ?_, ?_⟩
  · rw [Grid.deposit_eq_home g true x y a PheromoneType.FOOD hguard rfl,
      Grid.getLevel_inBounds _ true x y PheromoneType.HOME (by exact hin)]
    simp [effChannel, Grid.cellIndex, Grid.cellIndexZ]
  · rw [Grid.deposit_eq_home g true x y a PheromoneType.HOME hguard rfl,
      Grid.getLevel_inBounds _ true x y PheromoneType.FOOD (by exact hin)]
    simp [effChannel, Grid.cellIndex, Grid.cellIndexZ]
  · by_cases hg2 : 0 ≤ g.cellIndexZ x2 y2 ∧
        g.cellIndexZ x2 y2 < ((g.width * g.height : ℕ) : ℤ)
    · cases t <;> cases t2
      · exact absurd rfl hne
      · rw [Grid.deposit_eq_home g false x2 y2 a PheromoneType.HOME
          hg2 rfl]
        rfl
      · rw [Grid.deposit_eq_food g false x2 y2 a PheromoneType.FOOD
          hg2 rfl]
        rfl
      · exact absurd rfl hne
    · rw [Grid.deposit_noop g false x2 y2 a t hg2]


/-- Field-mutating operations of the `PheromoneGrid` interface, for
stating invariants over arbitrary operation sequences. -/
inductive GridOp where
  | dep (x y : ℚ) (t : PheromoneType) (amount : ℚ)
  | evap (rate : ℚ)
  | clear

/-- The side conditions the spec's invariant claim places on an
operation: deposits carry a nonnegative amount, decay rates lie in
`(0,1]`. -/
def GridOp.valid : GridOp → Prop
  | GridOp.dep _ _ _ amount => 0 ≤ amount
  | GridOp.evap rate => 0 < rate ∧ rate ≤ 1
  | GridOp.clear => True

/-- Dispatch one operation to the corresponding `PheromoneGrid`
method. -/
def Grid.applyOp (g : Grid) (single : Bool) : GridOp → Grid
  | GridOp.dep x y t amount => g.deposit single x y t amount
  | GridOp.evap rate => g.evaporate rate
  | GridOp.clear => g.reset

/-- Run a sequence of operations left to right. -/
def Grid.applyOps (g : Grid) (single : Bool) (ops : List GridOp) : Grid :=
  ops.foldl (fun gg op => gg.applyOp single op) g

theorem Grid.inUnitRange_deposit (g : Grid) (single : Bool)
    (x y amount : ℚ) (t : PheromoneType) (hg : g.inUnitRange)
    (ha : 0 ≤ amount) : (g.deposit single x y t amount).inUnitRange := by
  unfold Grid.deposit
  split_ifs with hguard hH
  · intro i hi
    have hi' : i < g.width * g.height := hi
    have hj : g.cellIndex x y < g.width * g.height := by
      obtain ⟨hg1, hg2⟩ := hguard
      unfold Grid.cellIndex
      omega
    refine ⟨?_, (hg i hi').2⟩
    dsimp only
    rcases eq_or_ne i (g.cellIndex x y) with hij | hij
    · simp only [hij, if_pos rfl]
      exact ⟨le_min (by norm_num) (add_nonneg (hg _ hj).1.1 ha),
        min_le_left _ _⟩
    · simp only [if_neg hij]
      exact (hg i hi').1
  · intro i hi
    have hi' : i < g.width * g.height := hi
    have hj : g.cellIndex x y < g.width * g.height := by
      obtain ⟨hg1, hg2⟩ := hguard
      unfold Grid.cellIndex
      omega
    refine ⟨(hg i hi').1, ?_⟩
    dsimp only
    rcases eq_or_ne i (g.cellIndex x y) with hij | hij
    · simp only [hij, if_pos rfl]
      exact ⟨le_min (by norm_num) (add_nonneg (hg _ hj).2.1 ha),
        min_le_left _ _⟩
    · simp only [if_neg hij]
      exact (hg i hi').2
  · exact hg

theorem Grid.cellDecay_mem (rate v : ℚ) (h0 : 0 < rate) (h1 : rate ≤ 1)
    (hv0 : 0 ≤ v) (hv1 : v ≤ 1) :
    0 ≤ Grid.cellDecay rate v ∧ Grid.cellDecay rate v ≤ 1 := by
  unfold Grid.cellDecay
  split_ifs
  · norm_num
  · constructor
    · positivity
    · nlinarith

theorem Grid.cellDecay_lt_eps (rate v : ℚ)
    (h : Grid.cellDecay rate v < 1/1000) : Grid.cellDecay rate v = 0 := by
  unfold Grid.cellDecay at *
  split_ifs at h ⊢ with hc
  · rfl
  · linarith

theorem Grid.inUnitRange_evaporate (g : Grid) (rate : ℚ)
    (hg : g.inUnitRange) (h0 : 0 < rate) (h1 : rate ≤ 1) :
    (g.evaporate rate).inUnitRange := by
  intro i hi
  have hi' : i < g.width * g.height := hi
  obtain ⟨⟨hh0, hh1⟩, hf0, hf1⟩ := hg i hi'
  unfold Grid.evaporate
  dsimp only
  rw [if_pos hi', if_pos hi']
  exact ⟨Grid.cellDecay_mem rate _ h0 h1 hh0 hh1,
    Grid.cellDecay_mem rate _ h0 h1 hf0 hf1⟩

theorem Grid.inUnitRange_reset (g : Grid) : g.reset.inUnitRange := by
  intro i hi
  norm_num [Grid.reset]

theorem Grid.inUnitRange_applyOp (g : Grid) (single : Bool) (op : GridOp)
    (hg : g.inUnitRange) (hv : op.valid) :
    (g.applyOp single op).inUnitRange := by
  cases op with
  | dep x y t amount => exact g.inUnitRange_deposit single x y amount t hg hv
  | evap rate => exact g.inUnitRange_evaporate rate hg hv.1 hv.2
  | clear => exact g.inUnitRange_reset

theorem Grid.inUnitRange_applyOps (g : Grid) (single : Bool)
    (ops : List GridOp) (hg : g.inUnitRange)
    (hv : ∀ op ∈ ops, op.valid) : (g.applyOps single ops).inUnitRange := by
  induction ops generalizing g with
  | nil => exact hg
  | cons op rest ih =>
    have h1 : (g.applyOp single op).inUnitRange :=
      g.inUnitRange_applyOp single op hg (hv op (List.mem_cons_self op rest))
    exact ih (g.applyOp single op) h1 fun o ho => hv o (List.mem_cons_of_mem _ ho)

theorem Grid.inUnitRange_zero (w h : ℕ) : (Grid.zero w h).inUnitRange := by
  intro i hi
  norm_num [Grid.zero]

/-- **C3**.  Starting from the all-zero field, any sequence of
deposits (nonnegative amount), decays (rate in `(0,1]`) and resets
keeps every cell of both channels in `[0,1]`; moreover any cell value
below `0.001` after a decay pass is exactly `0`. -/
theorem field_unit_invariant (w h : ℕ) (single : Bool) (ops : List GridOp)
    (hv : ∀ op ∈ ops, op.valid) (g2 : Grid) (rate : ℚ) (i : ℕ)
    (hi : i < g2.width * g2.height) :
    ((Grid.zero w h).applyOps single ops).inUnitRange ∧
    ((g2.evaporate rate).homeGrid i < 1/1000 →
      (g2.evaporate rate).homeGrid i = 0) ∧
    ((g2.evaporate rate).foodGrid i < 1/1000 →
      (g2.evaporate rate).foodGrid i = 0) := by
  refine ⟨Grid.inUnitRange_applyOps _ single ops (Grid.inUnitRange_zero w h) hv,
    ?_, ?_⟩ <;>
  · unfold Grid.evaporate
    dsimp only
    rw [if_pos hi]
    exact Grid.cellDecay_lt_eps rate _

/-- Witness for `field_unit_invariant` at a concrete operation
sequence on a `2 × 2` grid. -/
theorem field_unit_invariant_witness :
    ((Grid.zero 2 2).applyOps false
        [GridOp.dep 0 0 PheromoneType.HOME (1/2),
         GridOp.evap (1/2)]).inUnitRange ∧
    (((Grid.zero 2 2).evaporate (1/2)).homeGrid 0 < 1/1000 →
      ((Grid.zero 2 2).evaporate (1/2)).homeGrid 0 = 0) ∧
    (((Grid.zero 2 2).evaporate (1/2)).foodGrid 0 < 1/1000 →
      ((Grid.zero 2 2).evaporate (1/2)).foodGrid 0 = 0) :=
  field_unit_invariant 2 2 false
    [GridOp.dep 0 0 PheromoneType.HOME (1/2), GridOp.evap (1/2)]
    (by
      intro op hop
      rcases List.mem_cons.mp hop with rfl | hop
      · norm_num [GridOp.valid]
      rcases List.mem_cons.mp hop with rfl | hop
      · norm_num [GridOp.valid]
      · simp at hop)
    (Grid.zero 2 2) (1/2) 0 (by norm_num [Grid.zero])

theorem Grid.cellDecay_iterate (r v : ℚ) (h0 : 0 < r) (h1 : r ≤ 1)
    (hv : 0 ≤ v) (N : ℕ) (hN : 1 ≤ N) :
    (Grid.cellDecay r)^[N] v
      = if v * r ^ N < 1/1000 then 0 else v * r ^ N := by
  induction N, hN using Nat.le_induction with
  | base => simp [Grid.cellDecay, pow_one]
  | succ N hN ih =>
    rw [Function.iterate_succ_apply', ih]
    by_cases hlt : v * r ^ N < 1/1000
    · rw [if_pos hlt]
      have hle : v * r ^ (N + 1) ≤ v * r ^ N := by
        have hp : r ^ (N + 1) ≤ r ^ N :=
          pow_le_pow_of_le_one (le_of_lt h0) h1 (Nat.le_succ N)
        nlinarith [pow_nonneg (le_of_lt h0) N]
      have h2 : v * r ^ (N + 1) < 1/1000 := lt_of_le_of_lt hle hlt
      rw [if_pos h2]
      unfold Grid.cellDecay
      norm_num
    · rw [if_neg hlt]
      unfold Grid.cellDecay
      have hr : v * r ^ N * r = v * r ^ (N + 1) := by ring
      rw [hr]

theorem Grid.iterate_evaporate_cells (r : ℚ) (N i : ℕ) (g : Grid)
    (hi : i < g.width * g.height) :
    ((fun gg => Grid.evaporate gg r)^[N] g).homeGrid i
      = (Grid.cellDecay r)^[N] (g.homeGrid i) ∧
    ((fun gg => Grid.evaporate gg r)^[N] g).foodGrid i
      = (Grid.cellDecay r)^[N] (g.foodGrid i) := by
  induction N generalizing g with
  | zero => exact ⟨rfl, rfl⟩
  | succ N ih =>
    rw [Function.iterate_succ_apply, Function.iterate_succ_apply,
      Function.iterate_succ_apply]
    have hi2 : i < (g.evaporate r).width * (g.evaporate r).height := hi
    obtain ⟨eh, ef⟩ := ih (g.evaporate r) hi2
    refine ⟨?_, ?_⟩
    · rw [eh]
      congr 1
      unfold Grid.evaporate
      dsimp only
      rw [if_pos hi]
    · rw [ef]
      congr 1
      unfold Grid.evaporate
      dsimp only
      rw [if_pos hi]

/-- **C6**.  With rate `r ∈ (0,1]` and no intervening deposits, after
`N ≥ 1` decay passes a cell holding `v ≥ 0` holds exactly `v·rᴺ`,
except that the value is exactly `0` from the first pass whose result
dropped below `0.001` on (and, the formula being `0` for every larger
`N` as well, it stays `0` for all later ticks). -/
theorem decay_convergence (g : Grid) (r : ℚ) (N i : ℕ) (h0 : 0 < r)
    (h1 : r ≤ 1) (hi : i < g.width * g.height) (hN : 1 ≤ N)
    (hh : 0 ≤ g.homeGrid i) (hf : 0 ≤ g.foodGrid i) :
    ((fun gg => Grid.evaporate gg r)^[N] g).homeGrid i
      = (if g.homeGrid i * r ^ N < 1/1000 then 0
         else g.homeGrid i * r ^ N) ∧
    ((fun gg => Grid.evaporate gg r)^[N] g).foodGrid i
      = (if g.foodGrid i * r ^ N < 1/1000 then 0
         else g.foodGrid i * r ^ N) := by
  obtain ⟨eh, ef⟩ := Grid.iterate_evaporate_cells r N i g hi
  rw [eh, ef, Grid.cellDecay_iterate r _ h0 h1 hh N hN,
    Grid.cellDecay_iterate r _ h0 h1 hf N hN]
  exact ⟨rfl, rfl⟩

/-- Witness for `decay_convergence`: a `1 × 1` grid holding `1/2` in
both channels, decayed once at rate `1/2`. -/
theorem decay_convergence_witness :
    ((fun gg => Grid.evaporate gg (1/2))^[1]
        (Grid.mk 1 1 (fun _ => 1/2) (fun _ => 1/2))).homeGrid 0
      = (if (1/2 : ℚ) * (1/2) ^ 1 < 1/1000 then 0
         else (1/2 : ℚ) * (1/2) ^ 1) ∧
    ((fun gg => Grid.evaporate gg (1/2))^[1]
        (Grid.mk 1 1 (fun _ => 1/2) (fun _ => 1/2))).foodGrid 0
      = (if (1/2 : ℚ) * (1/2) ^ 1 < 1/1000 then 0
         else (1/2 : ℚ) * (1/2) ^ 1) :=
  decay_convergence (Grid.mk 1 1 (fun _ => 1/2) (fun _ => 1/2)) (1/2) 1 0
    (by norm_num) (by norm_num) (by norm_num) le_rfl
    (by norm_num) (by norm_num)

/-- An axis-aligned obstacle rectangle (interface `Obstacle`). -/
structure Obstacle where
  x : ℚ
  y : ℚ
  w : ℚ
  h : ℚ

/-- The containment test of `Agent.handleObstacles`
(`x >= obs.x && x <= obs.x + obs.w && y >= obs.y && y <= obs.y + obs.h`,
boundary included). -/
def Obstacle.containsClosed (o : Obstacle) (px py : ℚ) : Prop :=
  o.x ≤ px ∧ px ≤ o.x + o.w ∧ o.y ≤ py ∧ py ≤ o.y + o.h

instance (o : Obstacle) (px py : ℚ) : Decidable (o.containsClosed px py) := by
  unfold Obstacle.containsClosed; infer_instance

/-- A point strictly inside an obstacle rectangle (the spec's
"interior"). -/
def Obstacle.strictlyInside (o : Obstacle) (px py : ℚ) : Prop :=
  o.x < px ∧ px < o.x + o.w ∧ o.y < py ∧ py < o.y + o.h

instance (o : Obstacle) (px py : ℚ) : Decidable (o.strictlyInside px py) := by
  unfold Obstacle.strictlyInside; infer_instance

theorem Obstacle.strict_sub_closed (o : Obstacle) (px py : ℚ)
    (h : o.strictlyInside px py) : o.containsClosed px py :=
  ⟨le_of_lt h.1, le_of_lt h.2.1, le_of_lt h.2.2.1, le_of_lt h.2.2.2⟩

/-- The mutable per-agent state of class `Agent`. -/
structure AgentS where
  x : ℚ
  y : ℚ
  angle : ℚ
  state : AgentState
  pheromoneStrength : ℚ
  excitedLevel : ℕ
  searchTime : ℕ
  givingUp : Bool

/-- `Agent.handleObstacles` (`main.ts` 328-338): if the (tentative)
position lies in any obstacle rectangle, roll back to the pre-move
position and turn around with a random perturbation
(`angle += Math.PI + (Math.random() - 0.5)`; the draw is the `rand`
parameter).  The loop returns on the first hit; the resulting state is
the same whichever obstacle matches first. -/
def Agent.handleObstacles (obsList : List Obstacle) (prevX prevY rand : ℚ)
    (a : AgentS) : AgentS :=
  if obsList.any (fun o => decide (o.containsClosed a.x a.y)) then
    { a with x := prevX, y := prevY,
             angle := a.angle + MathPI + (rand - 1/2) }
  else a

/-- First statement of `Agent.handleBoundaries`:
`if (x < 0) { x = 0; angle = π - angle }`. -/
def Agent.boundStepXlow (a : AgentS) : AgentS :=
  if a.x < 0 then { a with x := 0, angle := MathPI - a.angle } else a

/-- Second statement: `if (x >= width) { x = width - 1; angle = π - angle }`. -/
def Agent.boundStepXhigh (w : ℚ) (a : AgentS) : AgentS :=
  if w ≤ a.x then { a with x := w - 1, angle := MathPI - a.angle } else a

/-- Third statement: `if (y < 0) { y = 0; angle = -angle }`. -/
def Agent.boundStepYlow (a : AgentS) : AgentS :=
  if a.y < 0 then { a with y := 0, angle := -a.angle } else a

/-- Fourth statement: `if (y >= height) { y = height - 1; angle = -angle }`. -/
def Agent.boundStepYhigh (h : ℚ) (a : AgentS) : AgentS :=
  if h ≤ a.y then { a with y := h - 1, angle := -a.angle } else a

/-- `Agent.handleBoundaries` (`main.ts` 443-448): the four edge checks
run in source order against the grid's width and height. -/
def Agent.handleBoundaries (w h : ℚ) (a : AgentS) : AgentS :=
  Agent.boundStepYhigh h
    (Agent.boundStepYlow (Agent.boundStepXhigh w (Agent.boundStepXlow a)))

/-- The post-move portion of `Agent.update` (`main.ts` 313-322): the
tentative position is already in `a`; obstacle rollback runs first,
then boundary clamping. -/
def Agent.postMove (obsList : List Obstacle) (w h prevX prevY rand : ℚ)
    (a : AgentS) : AgentS :=
  Agent.handleBoundaries w h (Agent.handleObstacles obsList prevX prevY rand a)

theorem Agent.handleBoundaries_id (w h : ℚ) (a : AgentS) (hx0 : 0 ≤ a.x)
    (hxw : a.x < w) (hy0 : 0 ≤ a.y) (hyh : a.y < h) :
    Agent.handleBoundaries w h a = a := by
  unfold Agent.handleBoundaries Agent.boundStepXlow Agent.boundStepXhigh
    Agent.boundStepYlow Agent.boundStepYhigh
  rw [if_neg (not_lt.mpr hx0), if_neg (not_le.mpr hxw),
    if_neg (not_lt.mpr hy0), if_neg (not_le.mpr hyh)]

/-- **C9**.  Boundary handling clamps an out-of-range coordinate to
`0` or (extent − 1), so both coordinates end in `[0, extent)`, and it
reflects the heading: `θ ↦ π − θ` at the vertical edges, `θ ↦ −θ` at
the horizontal edges (both applied when both axes overflow in the same
tick). -/
theorem boundary_reflection (w h : ℚ) (a : AgentS) (hw : 1 ≤ w)
    (hh : 1 ≤ h) :
    (0 ≤ (Agent.handleBoundaries w h a).x ∧
      (Agent.handleBoundaries w h a).x < w ∧
      0 ≤ (Agent.handleBoundaries w h a).y ∧
      (Agent.handleBoundaries w h a).y < h) ∧
    ((Agent.handleBoundaries w h a).x
      = if a.x < 0 then 0 else if w ≤ a.x then w - 1 else a.x) ∧
    ((Agent.handleBoundaries w h a).y
      = if a.y < 0 then 0 else if h ≤ a.y then h - 1 else a.y) ∧
    ((Agent.handleBoundaries w h a).angle
      = if (a.x < 0 ∨ w ≤ a.x) ∧ (a.y < 0 ∨ h ≤ a.y)
        then -(MathPI - a.angle)
        else if a.x < 0 ∨ w ≤ a.x then MathPI - a.angle
        else if a.y < 0 ∨ h ≤ a.y then -a.angle
        else a.angle) := by
  unfold Agent.handleBoundaries Agent.boundStepXlow Agent.boundStepXhigh
    Agent.boundStepYlow Agent.boundStepYhigh
  split_ifs <;> simp_all <;>
    first
      | linarith
      | (rcases ‹_ ∨ _› with hd | hd <;> linarith)
      | (rcases ‹_ ∧ _› with ⟨hd1, -⟩ ; rcases hd1 with hd | hd <;> linarith)

/-- Witness for `boundary_reflection`: an agent at `x = -5` on the
`600 × 600` arena is clamped to `x = 0` with heading mirrored to
`π − θ`. -/
theorem boundary_reflection_witness :
    (Agent.handleBoundaries 600 600
      (AgentS.mk (-5) 300 1 AgentState.FORAGING 1 0 0 false)).x = 0 ∧
    (Agent.handleBoundaries 600 600
      (AgentS.mk (-5) 300 1 AgentState.FORAGING 1 0 0 false)).angle
      = MathPI - 1 := by
  obtain ⟨-, hx, -, hang⟩ := boundary_reflection 600 600
    (AgentS.mk (-5) 300 1 AgentState.FORAGING 1 0 0 false)
    (by norm_num) (by norm_num)
  refine ⟨?_, ?_⟩
  · rw [hx]
    norm_num
  · rw [hang]
    norm_num

/-- **C2** (amended).  If an agent starts the tick at an in-bounds
position not strictly inside any obstacle and its tentative move stays
within the arena bounds, then after obstacle rollback followed by
boundary clamping it is not strictly inside any obstacle.  (Without
the in-bounds restriction on the tentative position the claim fails:
boundary clamping runs *after* the obstacle check and can push the
agent into an edge-touching obstacle, see the counterexample.) -/
theorem obstacle_rollback_keeps_out (obsList : List Obstacle)
    (w h prevX prevY rand : ℚ) (a : AgentS)
    (hpx0 : 0 ≤ prevX) (hpxw : prevX < w) (hpy0 : 0 ≤ prevY)
    (hpyh : prevY < h)
    (hprev : ∀ o ∈ obsList, ¬ o.strictlyInside prevX prevY)
    (hax0 : 0 ≤ a.x) (haxw : a.x < w) (hay0 : 0 ≤ a.y) (hayh : a.y < h) :
    ∀ o ∈ obsList,
      ¬ o.strictlyInside (Agent.postMove obsList w h prevX prevY rand a).x
        (Agent.postMove obsList w h prevX prevY rand a).y := by
  intro o ho
  unfold Agent.postMove Agent.handleObstacles
  by_cases hhit : obsList.any (fun o2 => decide (o2.containsClosed a.x a.y))
  · rw [if_pos hhit]
    rw [Agent.handleBoundaries_id w h _ (by exact hpx0) (by exact hpxw)
      (by exact hpy0) (by exact hpyh)]
    exact hprev o ho
  · rw [if_neg hhit]
    rw [Agent.handleBoundaries_id w h a hax0 haxw hay0 hayh]
    intro hstrict
    have hmiss : ∀ o2 ∈ obsList, ¬ o2.containsClosed a.x a.y := by
      intro o2 ho2
      by_contra hc
      exact hhit (List.any_eq_true.mpr ⟨o2, ho2, decide_eq_true hc⟩)
    exact hmiss o ho (Obstacle.strict_sub_closed o a.x a.y hstrict)

/-- **C2** counterexample to the claim as stated: with the maze's
right perimeter wall `{x:590, y:0, w:10, h:600}`, an agent at
`(585, 300)` (not strictly inside it) whose tentative move lands at
`(605, 300)` passes the obstacle check untouched, but boundary
clamping then moves it to `(599, 300)` — strictly inside the wall. -/
theorem obstacle_clamp_cex :
    ¬ (Obstacle.mk 590 0 10 600).strictlyInside 585 300 ∧
    (Obstacle.mk 590 0 10 600).strictlyInside
      (Agent.postMove [Obstacle.mk 590 0 10 600] 600 600 585 300 (1/2)
        (AgentS.mk 605 300 0 AgentState.FORAGING 1 0 0 false)).x
      (Agent.postMove [Obstacle.mk 590 0 10 600] 600 600 585 300 (1/2)
        (AgentS.mk 605 300 0 AgentState.FORAGING 1 0 0 false)).y := by
  constructor
  · unfold Obstacle.strictlyInside
    norm_num
  · unfold Agent.postMove Agent.handleObstacles
    rw [if_neg (by norm_num [Obstacle.containsClosed])]
    unfold Agent.handleBoundaries Agent.boundStepXlow Agent.boundStepXhigh
      Agent.boundStepYlow Agent.boundStepYhigh
    norm_num [Obstacle.strictlyInside]

/-- A nest (interface `Nest`): center, capture radius, surge timer. -/
structure Nest where
  x : ℚ
  y : ℚ
  r : ℚ
  surgeTimer : ℕ

/-- A food source (interface `FoodSource`): same fields as a nest. -/
structure FoodSource where
  x : ℚ
  y : ℚ
  r : ℚ
  surgeTimer : ℕ

/-- Squared Euclidean distance.  The source compares
`Math.hypot(dx, dy) < r`; with nonnegative radii this is equivalent to
`dx² + dy² < r²`, which is how every distance comparison is modelled
here. -/
def distSq (x1 y1 x2 y2 : ℚ) : ℚ :=
  (x1 - x2) ^ 2 + (y1 - y2) ^ 2

/-- The closest-nest loop of `Agent.handleStateAndPheromones`
(`main.ts` 452-461): starting from `minDist = Infinity`, keep the
first nest attaining the strictly smallest distance; `i` tracks the
list position of the current best (standing in for the object
reference the source keeps).  Returns position, nest and squared
distance. -/
def closestNestFrom (ax ay : ℚ) :
    ℕ → List Nest → Option (ℕ × Nest × ℚ) → Option (ℕ × Nest × ℚ)
  | _, [], best => best
  | i, n :: rest, best =>
      closestNestFrom ax ay (i + 1) rest
        (match best with
         | none => some (i, n, distSq ax ay n.x n.y)
         | some (bi, bn, bd) =>
             if distSq ax ay n.x n.y < bd
             then some (i, n, distSq ax ay n.x n.y)
             else some (bi, bn, bd))

/-- Entry point of the closest-nest scan. -/
def closestNestScan (ax ay : ℚ) (nests : List Nest) :
    Option (ℕ × Nest × ℚ) :=
  closestNestFrom ax ay 0 nests none

/-- The food test of `Agent.handleStateAndPheromones`
(`main.ts` 466-472): inside any food source's radius. -/
def Agent.onFood (foods : List FoodSource) (ax ay : ℚ) : Bool :=
  foods.any (fun f => decide (distSq ax ay f.x f.y < f.r ^ 2))

/-- `Agent.handleStateAndPheromones` (`main.ts` 450-527).  `gradient`
is `params.usePheromoneGradient`, `single` is
`params.singlePheromoneMode`.  Returns the updated agent, grid and
nest list.  A `none` closest-nest scan (empty nest list) would crash
the source on `closestNest.r`; the spec (§7) makes at least one nest a
precondition, so that branch returns the inputs unchanged and all
theorems assume a nonempty scan result. -/
def Agent.handleStateAndPheromones (gradient single : Bool)
    (foods : List FoodSource) (nests : List Nest) (g : Grid)
    (a : AgentS) : AgentS × Grid × List Nest :=
  match closestNestScan a.x a.y nests with
  | none => (a, g, nests)
  | some (ni, cn, dSq) =>
    match a.state with
    | AgentState.FORAGING =>
      let g1 := g.deposit single a.x a.y PheromoneType.HOME
        a.pheromoneStrength
      let a1 :=
        if Agent.onFood foods a.x a.y then
          { a with state := AgentState.RETURNING, pheromoneStrength := 1,
                   angle := a.angle + MathPI, excitedLevel := 2 }
        else if gradient then
          { a with pheromoneStrength := max 0 (a.pheromoneStrength - 1/200) }
        else
          { a with pheromoneStrength := 1 }
      let a2 := if dSq < cn.r ^ 2
        then { a1 with pheromoneStrength := 1 } else a1
      (a2, g1, nests)
    | AgentState.RETURNING =>
      let g1 := g.deposit single a.x a.y PheromoneType.FOOD
        a.pheromoneStrength
      let ns1 :=
        if dSq < cn.r ^ 2 ∧ a.excitedLevel = 2
        then nests.set ni { cn with surgeTimer := 600 } else nests
      let a1 :=
        if dSq < cn.r ^ 2 then
          { a with state := AgentState.FORAGING, pheromoneStrength := 1,
                   angle := a.angle + MathPI, excitedLevel := 0 }
        else if gradient then
          { a with pheromoneStrength := max 0 (a.pheromoneStrength - 1/200) }
        else
          { a with pheromoneStrength := 1 }
      let a2 := if Agent.onFood foods a.x a.y
        then { a1 with pheromoneStrength := 1 } else a1
      (a2, g1, ns1)

/-- **C8** (amended).  At the state-transition step, a `FORAGING`
agent inside a food radius transitions to `RETURNING`, sets
trail-strength to `1.0`, sets excitation to `SOURCE` (level 2) and
reverses heading by exactly `π`, whatever else holds; an agent already
`RETURNING` inside the food radius — *and not simultaneously within
its closest nest's radius* — does not transition again: it keeps its
state, heading and excitation and only recharges trail-strength to
`1.0`. -/
theorem food_contact_transition (gradient single : Bool)
    (foods : List FoodSource) (nests : List Nest) (g : Grid) (a : AgentS)
    (ni : ℕ) (cn : Nest) (dSq : ℚ)
    (hscan : closestNestScan a.x a.y nests = some (ni, cn, dSq))
    (hfood : Agent.onFood foods a.x a.y = true) :
    (a.state = AgentState.FORAGING →
      ((Agent.handleStateAndPheromones gradient single foods nests g
          a).1.state = AgentState.RETURNING ∧
       (Agent.handleStateAndPheromones gradient single foods nests g
          a).1.pheromoneStrength = 1 ∧
       (Agent.handleStateAndPheromones gradient single foods nests g
          a).1.angle = a.angle + MathPI ∧
       (Agent.handleStateAndPheromones gradient single foods nests g
          a).1.excitedLevel = 2)) ∧
    (a.state = AgentState.RETURNING → ¬ (dSq < cn.r ^ 2) →
      ((Agent.handleStateAndPheromones gradient single foods nests g
          a).1.state = AgentState.RETURNING ∧
       (Agent.handleStateAndPheromones gradient single foods nests g
          a).1.pheromoneStrength = 1 ∧
       (Agent.handleStateAndPheromones gradient single foods nests g
          a).1.angle = a.angle ∧
       (Agent.handleStateAndPheromones gradient single foods nests g
          a).1.excitedLevel = a.excitedLevel)) := by
  constructor
  · intro hst
    unfold Agent.handleStateAndPheromones
    rw [hscan, hst]
    by_cases hnest : dSq < cn.r ^ 2 <;> simp [hfood, hnest]
  · intro hst hnonest
    unfold Agent.handleStateAndPheromones
    rw [hscan, hst]
    simp [hfood, hnonest]
    by_cases hgrad : gradient = true <;> simp [hgrad]

/-- **C8** counterexample to the claim as stated: when a food source
overlaps a nest (food at the nest center `(300,300)`), a `RETURNING`
agent standing there is inside the food radius, yet it *does*
transition — nest arrival flips it to `FORAGING` — rather than merely
recharging. -/
theorem returning_on_food_transitions_cex :
    Agent.onFood [FoodSource.mk 300 300 30 0] 300 300 = true ∧
    (Agent.handleStateAndPheromones true true [FoodSource.mk 300 300 30 0]
        [Nest.mk 300 300 20 0] (Grid.zero 600 600)
        (AgentS.mk 300 300 0 AgentState.RETURNING (1/2) 0 0 false)).1.state
      = AgentState.FORAGING := by
  constructor
  · norm_num [Agent.onFood, distSq]
  · unfold Agent.handleStateAndPheromones
    norm_num [closestNestScan, closestNestFrom, Agent.onFood, distSq]

/-- Witness for `food_contact_transition`: a `FORAGING` agent at
`(100,100)` on a food source there (nest far away at `(300,300)`), and
a `RETURNING` agent in the same geometry. -/
theorem food_contact_transition_witness :
    ((Agent.handleStateAndPheromones true true [FoodSource.mk 100 100 30 0]
        [Nest.mk 300 300 20 0] (Grid.zero 600 600)
        (AgentS.mk 100 100 0 AgentState.FORAGING (1/2) 0 0 false)).1.state
      = AgentState.RETURNING ∧
     (Agent.handleStateAndPheromones true true [FoodSource.mk 100 100 30 0]
        [Nest.mk 300 300 20 0] (Grid.zero 600 600)
        (AgentS.mk 100 100 0 AgentState.FORAGING (1/2) 0 0 false)).1.pheromoneStrength
      = 1 ∧
     (Agent.handleStateAndPheromones true true [FoodSource.mk 100 100 30 0]
        [Nest.mk 300 300 20 0] (Grid.zero 600 600)
        (AgentS.mk 100 100 0 AgentState.FORAGING (1/2) 0 0 false)).1.angle
      = 0 + MathPI ∧
     (Agent.handleStateAndPheromones true true [FoodSource.mk 100 100 30 0]
        [Nest.mk 300 300 20 0] (Grid.zero 600 600)
        (AgentS.mk 100 100 0 AgentState.FORAGING (1/2) 0 0 false)).1.excitedLevel
      = 2) ∧
    ((Agent.handleStateAndPheromones true true [FoodSource.mk 100 100 30 0]
        [Nest.mk 300 300 20 0] (Grid.zero 600 600)
        (AgentS.mk 100 100 1 AgentState.RETURNING (1/2) 0 5 false)).1.state
      = AgentState.RETURNING ∧
     (Agent.handleStateAndPheromones true true [FoodSource.mk 100 100 30 0]
        [Nest.mk 300 300 20 0] (Grid.zero 600 600)
        (AgentS.mk 100 100 1 AgentState.RETURNING (1/2) 0 5 false)).1.pheromoneStrength
      = 1 ∧
     (Agent.handleStateAndPheromones true true [FoodSource.mk 100 100 30 0]
        [Nest.mk 300 300 20 0] (Grid.zero 600 600)
        (AgentS.mk 100 100 1 AgentState.RETURNING (1/2) 0 5 false)).1.angle
      = 1 ∧
     (Agent.handleStateAndPheromones true true [FoodSource.mk 100 100 30 0]
        [Nest.mk 300 300 20 0] (Grid.zero 600 600)
        (AgentS.mk 100 100 1 AgentState.RETURNING (1/2) 0 5 false)).1.excitedLevel
      = 0) := by
  have hscan1 : closestNestScan 100 100 [Nest.mk 300 300 20 0]
      = some (0, Nest.mk 300 300 20 0, 80000) := by
    norm_num [closestNestScan, closestNestFrom, distSq]
  have hfood1 : Agent.onFood [FoodSource.mk 100 100 30 0] 100 100 = true := by
    norm_num [Agent.onFood, distSq]
  constructor
  · exact (food_contact_transition true true [FoodSource.mk 100 100 30 0]
      [Nest.mk 300 300 20 0] (Grid.zero 600 600)
      (AgentS.mk 100 100 0 AgentState.FORAGING (1/2) 0 0 false)
      0 (Nest.mk 300 300 20 0) 80000 hscan1 hfood1).1 rfl
  · exact (food_contact_transition true true [FoodSource.mk 100 100 30 0]
      [Nest.mk 300 300 20 0] (Grid.zero 600 600)
      (AgentS.mk 100 100 1 AgentState.RETURNING (1/2) 0 5 false)
      0 (Nest.mk 300 300 20 0) 80000 hscan1 hfood1).2 rfl (by norm_num)

/-- The spawn-admission step at the top of `loop` (`main.ts` 680-703),
with sortie regulation disabled (its default): if the population is
below the ceiling, add `spawnRate` to the accumulator, take the
integer part as the spawn count (the fractional remainder is carried),
and push that many agents, stopping early at the ceiling.  State is
`(population, accumulator)`. -/
def spawnStep (cap : ℕ) (s : ℚ) (p : ℕ × ℚ) : ℕ × ℚ :=
  if p.1 < cap then
    (p.1 + min (Int.floor (p.2 + s)).toNat (cap - p.1),
     p.2 + s - Int.floor (p.2 + s))
  else p

/-- **C7**.  From an empty population and zero accumulator, as long as
the population stays below the ceiling (and the tick that may reach it
does not overshoot), the cumulative number of agents spawned after `k`
ticks is exactly `⌊k·s⌋`, and the accumulator carries exactly the
fractional remainder `k·s − ⌊k·s⌋`. -/
theorem spawn_budget_conservation (cap k : ℕ) (s : ℚ) (hs : 0 ≤ s)
    (hlt : ∀ j < k, Int.floor ((j : ℚ) * s) < (cap : ℤ))
    (hle : Int.floor ((k : ℚ) * s) ≤ (cap : ℤ)) :
    (spawnStep cap s)^[k] (0, 0)
      = ((Int.floor ((k : ℚ) * s)).toNat,
         (k : ℚ) * s - Int.floor ((k : ℚ) * s)) := by
  induction k with
  | zero => simp
  | succ k ih =>
    have hlt' : ∀ j < k, Int.floor ((j : ℚ) * s) < (cap : ℤ) :=
      fun j hj => hlt j (Nat.lt_succ_of_lt hj)
    have hkc : Int.floor ((k : ℚ) * s) < (cap : ℤ) :=
      hlt k (Nat.lt_succ_self k)
    rw [Function.iterate_succ_apply', ih hlt' (le_of_lt hkc)]
    have hks0 : 0 ≤ Int.floor ((k : ℚ) * s) :=
      Int.floor_nonneg.mpr (by positivity)
    have hn_lt : (Int.floor ((k : ℚ) * s)).toNat < cap := by omega
    unfold spawnStep
    rw [if_pos hn_lt]
    dsimp only
    have hacc : (k : ℚ) * s - (Int.floor ((k : ℚ) * s) : ℚ) + s
        = ((k + 1 : ℕ) : ℚ) * s - (Int.floor ((k : ℚ) * s) : ℚ) := by
      push_cast
      ring
    rw [hacc, Int.floor_sub_int]
    have hmono : Int.floor ((k : ℚ) * s)
        ≤ Int.floor (((k + 1 : ℕ) : ℚ) * s) := by
      apply Int.floor_le_floor
      have hcast : (k : ℚ) ≤ ((k + 1 : ℕ) : ℚ) := by
        push_cast
        linarith
      nlinarith
    have hk1c : Int.floor (((k + 1 : ℕ) : ℚ) * s) ≤ (cap : ℤ) := hle
    simp only [Prod.mk.injEq]
    constructor
    · omega
    · push_cast
      ring

/-- Witness for `spawn_budget_conservation`: ceiling 3, rate `3/2`,
two ticks → 3 agents spawned, zero remainder. -/
theorem spawn_budget_conservation_witness :
    (spawnStep 3 (3/2))^[2] (0, 0)
      = ((Int.floor ((2 : ℚ) * (3/2))).toNat,
         (2 : ℚ) * (3/2) - Int.floor ((2 : ℚ) * (3/2))) :=
  spawn_budget_conservation 3 2 (3/2) (by norm_num)
    (by
      intro j hj
      interval_cases j <;> norm_num)
    (by norm_num)

namespace OldRev

/-- `PheromoneGrid.deposit` of the earlier near-duplicate revision
(`part_000` 105-118), transcribed independently; the class state has
the same four fields, so it is modelled on the same `Grid` type. -/
def deposit (g : Grid) (single : Bool) (x y : ℚ) (t : PheromoneType)
    (amount : ℚ) : Grid :=
  if 0 ≤ g.cellIndexZ x y ∧
      g.cellIndexZ x y < ((g.width * g.height : ℕ) : ℤ) then
    if effChannel single t = PheromoneType.HOME then
      { g with homeGrid := fun i =>
          if i = g.cellIndex x y
          then min 1 (g.homeGrid (g.cellIndex x y) + amount)
          else g.homeGrid i }
    else
      { g with foodGrid := fun i =>
          if i = g.cellIndex x y
          then min 1 (g.foodGrid (g.cellIndex x y) + amount)
          else g.foodGrid i }
  else g

/-- `PheromoneGrid.getLevel` of the earlier revision
(`part_000` 121-130). -/
def getLevel (g : Grid) (single : Bool) (x y : ℚ)
    (t : PheromoneType) : ℚ :=
  if x < 0 ∨ (g.width : ℚ) ≤ x ∨ y < 0 ∨ (g.height : ℚ) ≤ y then -1
  else
    if effChannel single t = PheromoneType.HOME
    then g.homeGrid (g.cellIndex x y)
    else g.foodGrid (g.cellIndex x y)

/-- One cell of the earlier revision's evaporation pass
(`part_000` 135-140). -/
def cellDecay (rate v : ℚ) : ℚ :=
  if v * rate < 1/1000 then 0 else v * rate

/-- `PheromoneGrid.evaporate` of the earlier revision
(`part_000` 133-142). -/
def evaporate (g : Grid) (rate : ℚ) : Grid :=
  { g with
    homeGrid := fun i =>
      if i < g.width * g.height then OldRev.cellDecay rate (g.homeGrid i)
      else g.homeGrid i
    foodGrid := fun i =>
      if i < g.width * g.height then OldRev.cellDecay rate (g.foodGrid i)
      else g.foodGrid i }

/-- `PheromoneGrid.reset` of the earlier revision (`part_000` 144-147). -/
def reset (g : Grid) : Grid :=
  { g with homeGrid := fun _ => 0, foodGrid := fun _ => 0 }

end OldRev

/-- **C10**.  The `PheromoneGrid` operations of the current revision
and of the earlier near-duplicate revision are extensionally equal:
on every grid state, mode flag, coordinate pair, channel, amount and
rate, `deposit`, `getLevel`, `evaporate` and `reset` produce identical
grids and return values. -/
theorem old_revision_grid_equiv (g : Grid) (single : Bool)
    (x y amount rate : ℚ) (t : PheromoneType) :
    OldRev.deposit g single x y t amount
      = Grid.deposit g single x y t amount ∧
    OldRev.getLevel g single x y t = Grid.getLevel g single x y t ∧
    OldRev.evaporate g rate = Grid.evaporate g rate ∧
    OldRev.reset g = Grid.reset g :=
  ⟨rfl, rfl, rfl, rfl⟩

/-- Witness for `deposit_flat_index_guard`: the flattened index of
`(-5,-5)` is negative, so that deposit is a no-op; the in-bounds point
`(2,3)` updates exactly its own cell of the food channel. -/
theorem deposit_flat_index_guard_witness :
    ((Grid.zero 600 600).deposit false (-5) (-5) PheromoneType.FOOD (1/3)
        = Grid.zero 600 600) ∧
    (((Grid.zero 600 600).deposit false 2 3 PheromoneType.FOOD (1/3)).chan
          (effChannel false PheromoneType.FOOD)
          ((Grid.zero 600 600).cellIndex 2 3)
        = min 1 ((Grid.zero 600 600).chan (effChannel false PheromoneType.FOOD)
            ((Grid.zero 600 600).cellIndex 2 3) + 1/3) ∧
      ((0 : ℕ) ≠ (Grid.zero 600 600).cellIndex 2 3 →
        ((Grid.zero 600 600).deposit false 2 3 PheromoneType.FOOD (1/3)).chan
            (effChannel false PheromoneType.FOOD) 0
          = (Grid.zero 600 600).chan (effChannel false PheromoneType.FOOD) 0) ∧
      ((Grid.zero 600 600).deposit false 2 3 PheromoneType.FOOD (1/3)).chan
          (effChannel false PheromoneType.FOOD).other
        = (Grid.zero 600 600).chan
            (effChannel false PheromoneType.FOOD).other) := by
  constructor
  · exact (deposit_flat_index_guard (Grid.zero 600 600) false (-5) (-5)
      (1/3) PheromoneType.FOOD 0).1
      (by norm_num [Grid.cellIndexZ, Grid.zero])
  · exact (deposit_flat_index_guard (Grid.zero 600 600) false 2 3
      (1/3) PheromoneType.FOOD 0).2
      (by norm_num [Grid.inBounds, Grid.zero])

/-- Witness for `obstacle_rollback_keeps_out`: the maze's right wall,
an in-bounds previous position and an in-bounds tentative position. -/
theorem obstacle_rollback_keeps_out_witness :
    ¬ (Obstacle.mk 590 0 10 600).strictlyInside
      (Agent.postMove [Obstacle.mk 590 0 10 600] 600 600 585 300 (1/2)
        (AgentS.mk 200 300 0 AgentState.FORAGING 1 0 0 false)).x
      (Agent.postMove [Obstacle.mk 590 0 10 600] 600 600 585 300 (1/2)
        (AgentS.mk 200 300 0 AgentState.FORAGING 1 0 0 false)).y := by
  exact obstacle_rollback_keeps_out [Obstacle.mk 590 0 10 600] 600 600
    585 300 (1/2) (AgentS.mk 200 300 0 AgentState.FORAGING 1 0 0 false)
    (by norm_num) (by norm_num) (by norm_num) (by norm_num)
    (by
      intro o ho
      simp only [List.mem_singleton] at ho
      subst ho
      norm_num [Obstacle.strictlyInside])
    (by norm_num) (by norm_num) (by norm_num) (by norm_num)
    (Obstacle.mk 590 0 10 600) (by simp)

/-- Witness for `getLevel_sentinel_iff`: the sentinel at the
out-of-bounds point `(-1,0)` and the stored value at the in-bounds
point `(2,3)` of the all-zero grid. -/
theorem getLevel_sentinel_iff_witness :
    ((Grid.zero 600 600).getLevel false (-1) 0 PheromoneType.HOME = -1) ∧
    ((Grid.zero 600 600).getLevel false 2 3 PheromoneType.HOME
        = (Grid.zero 600 600).chan (effChannel false PheromoneType.HOME)
            ((Grid.zero 600 600).cellIndex 2 3) ∧
      0 ≤ (Grid.zero 600 600).getLevel false 2 3 PheromoneType.HOME ∧
      (Grid.zero 600 600).getLevel false 2 3 PheromoneType.HOME ≤ 1) := by
  constructor
  · exact (getLevel_sentinel_iff (Grid.zero 600 600) false (-1) 0
      PheromoneType.HOME (Grid.inUnitRange_zero 600 600)).1.mpr
      (by norm_num [Grid.inBounds, Grid.zero])
  · exact (getLevel_sentinel_iff (Grid.zero 600 600) false 2 3
      PheromoneType.HOME (Grid.inUnitRange_zero 600 600)).2
      (by norm_num [Grid.inBounds, Grid.zero])

/-- Witness for `single_mode_channel_redirect` on the all-zero grid at
cell `(2,2)`. -/
theorem single_mode_channel_redirect_witness :
    (((Grid.zero 600 600).deposit true 2 2 PheromoneType.FOOD
        (1/2)).getLevel true 2 2 PheromoneType.HOME
      = min 1 ((Grid.zero 600 600).homeGrid
          ((Grid.zero 600 600).cellIndex 2 2) + 1/2)) ∧
    (((Grid.zero 600 600).deposit true 2 2 PheromoneType.HOME
        (1/2)).getLevel true 2 2 PheromoneType.FOOD
      = min 1 ((Grid.zero 600 600).homeGrid
          ((Grid.zero 600 600).cellIndex 2 2) + 1/2)) ∧
    (((Grid.zero 600 600).deposit false 5 5 PheromoneType.HOME
        (1/2)).getLevel false 7 7 PheromoneType.FOOD
      = (Grid.zero 600 600).getLevel false 7 7 PheromoneType.FOOD) := by
  exact single_mode_channel_redirect (Grid.zero 600 600) 2 2 5 5 7 7 (1/2)
    PheromoneType.HOME PheromoneType.FOOD
    (by norm_num [Grid.inBounds, Grid.zero]) (by decide)
